import Mathlib

/-!
# Borderless window chrome: a shallow embedding of borderless-window.c

The window procedure of the program and the handlers it routes to are
translated into pure functions.  Every query the C code sends to the
windowing system (IsMaximized, GetWindowInfo, GetSystemMetrics, ...) is answered
by a field of `Env`, a snapshot of the system at the moment the handler runs.
Every call that changes the system (SetWindowRgn, InvalidateRect,
DefWindowProcW, ...) is recorded, in program order, in a list of `Call`s.

Machine integers: `LONG` and `int` are 32-bit signed, `unsigned` / `UINT` are
32-bit unsigned (the Windows data model).  Values live in `Int` / `Nat`;
`toLONG` and `toUINT` are the explicit reductions modulo 2^32 that the C
conversions and the wrapping arithmetic perform.
-/

set_option linter.dupNamespace false

namespace Borderless

/-! ## Machine integers -/

/-- Smallest value of a `LONG` (32-bit signed). -/
def LONG_MIN : Int := -2147483648

/-- Largest value of a `LONG` (32-bit signed). -/
def LONG_MAX : Int := 2147483647

/-- Number of values of a 32-bit integer, 2^32. -/
def UINT_RANGE : Int := 4294967296

/-- Conversion to `unsigned` / `UINT` / `unsigned long`: reduction modulo 2^32. -/
def toUINT (v : Int) : Nat := (v % UINT_RANGE).toNat

/-- Conversion to `LONG` / `int`: the two-complement value with the same low 32 bits. -/
def toLONG (v : Int) : Int := (v + 2147483648) % UINT_RANGE - 2147483648

/-- The value is representable as a `LONG`. -/
def isLONG (v : Int) : Prop := LONG_MIN ≤ v ∧ v ≤ LONG_MAX

instance (v : Int) : Decidable (isLONG v) := by
  unfold isLONG; infer_instance

/-! ## Data model -/

/-- The Win32 `RECT`: four `LONG` edges. -/
structure RECT where
  left : Int
  top : Int
  right : Int
  bottom : Int
deriving DecidableEq, Repr

/-- The Win32 `POINT`. -/
structure POINT where
  x : Int
  y : Int
deriving DecidableEq, Repr

/-- The compound literal `(RECT) { 0 }`. -/
def RECT.zero : RECT := ⟨0, 0, 0, 0⟩

/-- The Win32 `EqualRect`: all four edges coincide. -/
def EqualRect (a b : RECT) : Bool :=
  a.left == b.left && a.top == b.top && a.right == b.right && a.bottom == b.bottom

/-- The fields of `WINDOWINFO` the program reads. -/
structure WINDOWINFO where
  rcWindow : RECT
  rcClient : RECT
  cyWindowBorders : Nat
deriving DecidableEq, Repr

/-- The per-window state, `struct window`.  `width` and `height` are `unsigned`. -/
structure window where
  window : Nat
  width : Nat
  height : Nat
  rgn : RECT
  theme_enabled : Bool
  composition_enabled : Bool
deriving DecidableEq, Repr

/-- Calls by which the program changes the windowing system, as recorded in a trace.
`SetWindowRgn none` is the call with a `NULL` region; `SetWindowRgn (some r)` is the
call with `CreateRectRgnIndirect(&r)`. -/
inductive Call where
  | SetWindowRgn (rgn : Option RECT)
  | InvalidateRect (r : RECT)
  | DefWindowProcW (msg : Nat) (wparam : Nat) (lparam : Int)
  | SetWindowLongPtrW (index : Int) (value : Nat)
  | DwmExtendFrameIntoClientArea (cxLeftWidth cxRightWidth cyTopHeight cyBottomHeight : Int)
  | DwmSetWindowAttribute (attr : Nat) (value : Nat)
  | DestroyWindow
  | PostQuitMessage (code : Int)
  | ReleaseCapture
  | SendMessageW (msg : Nat) (wparam : Nat) (lparam : Int)
  | FillRect (r : RECT)
  | TestCommand (key : Nat)
deriving DecidableEq, Repr

/-- Answers of the windowing system to the queries of the program, at the moment a
handler runs.  Pointer arguments are read through the `...At` fields. -/
structure Env where
  /-- Result of `IsMaximized(data->window)`. -/
  IsMaximized : Bool
  /-- What `GetWindowInfo` stores. -/
  GetWindowInfo : WINDOWINFO
  /-- What `GetClientRect` stores. -/
  GetClientRect : RECT
  /-- What `GetMonitorInfoW` stores in `mi.rcMonitor`. -/
  rcMonitor : RECT
  /-- Result of `IsWindows8Point1OrGreater()`. -/
  IsWindows8Point1OrGreater : Bool
  /-- Result of `SHAppBarMessage(ABM_GETAUTOHIDEBAREX, ...)` for an edge and a monitor rectangle. -/
  autoHideBarEx : Nat → RECT → Nat
  /-- Result of `SHAppBarMessage(ABM_GETAUTOHIDEBAR, ...)` for an edge. -/
  autoHideBar : Nat → Nat
  /-- The rectangle `DefWindowProcW(WM_NCCALCSIZE)` leaves in place of the proposed one. -/
  defNcCalcSize : Nat → RECT → RECT
  /-- Return value of `DefWindowProcW`. -/
  DefWindowProcW : Nat → Nat → Int → Int
  /-- What `ScreenToClient` turns a screen point into. -/
  ScreenToClient : POINT → POINT
  /-- Result of `GetSystemMetrics`, an `int`. -/
  GetSystemMetrics : Nat → Int
  /-- Value of `enabled` after `DwmIsCompositionEnabled(&enabled)`. -/
  DwmIsCompositionEnabled : Bool
  /-- Result of `IsThemeActive()`. -/
  IsThemeActive : Bool
  /-- Result of `GetWindowLongPtrW(window, GWL_STYLE)`, as a bit pattern. -/
  style : Nat
  /-- The `RECT` a `WM_NCCALCSIZE` lparam points to. -/
  rectAt : Int → RECT
  /-- The `flags` of the `WINDOWPOS` a `WM_WINDOWPOSCHANGED` lparam points to. -/
  windowposFlagsAt : Int → Nat
  /-- The `lpCreateParams` of the `CREATESTRUCTW` a `WM_NCCREATE` lparam points to. -/
  createParamsAt : Int → Option window

/-! ## update_region -/

/-- The rectangle `update_region` assigns to `data->rgn` (the three-way branch). -/
def computed_region (env : Env) (data : window) : RECT :=
  if env.IsMaximized then
    let wi := env.GetWindowInfo
    { left := toLONG (wi.rcClient.left - wi.rcWindow.left)
      top := toLONG (wi.rcClient.top - wi.rcWindow.top)
      right := toLONG (wi.rcClient.right - wi.rcWindow.left)
      bottom := toLONG (wi.rcClient.bottom - wi.rcWindow.top) }
  else if !data.composition_enabled then
    { left := 0, top := 0, right := 32767, bottom := 32767 }
  else
    RECT.zero

/-- The function `update_region`: the new state and the calls issued. -/
def update_region (env : Env) (data : window) : window × List Call :=
  let old_rgn := data.rgn
  let data := { data with rgn := computed_region env data }
  if EqualRect data.rgn old_rgn then
    (data, [])
  else if EqualRect data.rgn RECT.zero then
    (data, [Call.SetWindowRgn none])
  else
    (data, [Call.SetWindowRgn (some data.rgn)])

/-! ## handle_compositionchanged, handle_themechanged -/

/-- The constant `DWMWA_NCRENDERING_POLICY` of dwmapi.h. -/
def DWMWA_NCRENDERING_POLICY : Nat := 2

/-- The constant `DWMNCRP_ENABLED` of dwmapi.h. -/
def DWMNCRP_ENABLED : Nat := 2

/-- The function `handle_compositionchanged`. -/
def handle_compositionchanged (env : Env) (data : window) : window × List Call :=
  let enabled := env.DwmIsCompositionEnabled
  let data := { data with composition_enabled := enabled }
  let frame :=
    if enabled then
      [Call.DwmExtendFrameIntoClientArea 0 0 1 0,
       Call.DwmSetWindowAttribute DWMWA_NCRENDERING_POLICY DWMNCRP_ENABLED]
    else []
  let r := update_region env data
  (r.1, frame ++ r.2)

/-- The function `handle_themechanged`. -/
def handle_themechanged (env : Env) (data : window) : window :=
  { data with theme_enabled := env.IsThemeActive }

/-! ## has_autohide_appbar, handle_nccalcsize -/

/-- The constant `ABE_LEFT` of shellapi.h. -/
def ABE_LEFT : Nat := 0

/-- The constant `ABE_TOP` of shellapi.h. -/
def ABE_TOP : Nat := 1

/-- The constant `ABE_RIGHT` of shellapi.h. -/
def ABE_RIGHT : Nat := 2

/-- The constant `ABE_BOTTOM` of shellapi.h. -/
def ABE_BOTTOM : Nat := 3

/-- The function `has_autohide_appbar`: a non-zero answer of the shell counts as true;
before Windows 8.1 only a monitor whose origin is (0,0) is probed. -/
def has_autohide_appbar (env : Env) (edge : Nat) (mon : RECT) : Bool :=
  if env.IsWindows8Point1OrGreater then
    env.autoHideBarEx edge mon != 0
  else if mon.left != 0 || mon.top != 0 then
    false
  else
    env.autoHideBar edge != 0

/-- The rectangle `handle_nccalcsize` stores first in the maximized branch:
`nonclient` is the rectangle before `DefWindowProcW` ran, `client` the one after. -/
def maximized_client (nonclient client : RECT) (wi : WINDOWINFO) : RECT :=
  { left := client.left
    top := toLONG (nonclient.top + wi.cyWindowBorders)
    right := client.right
    bottom := client.bottom }

/-- The block of `handle_nccalcsize` guarded by `EqualRect(params.rect, &mi.rcMonitor)`:
the one-pixel reduction on the first edge, in the order bottom, left, top, right, that
has an auto-hide appbar.  The `--` and `++` on a `LONG` wrap. -/
def autohide_compensation (env : Env) (rect : RECT) : RECT :=
  let mon := env.rcMonitor
  if EqualRect rect mon then
    if has_autohide_appbar env ABE_BOTTOM mon then
      { rect with bottom := toLONG (rect.bottom - 1) }
    else if has_autohide_appbar env ABE_LEFT mon then
      { rect with left := toLONG (rect.left + 1) }
    else if has_autohide_appbar env ABE_TOP mon then
      { rect with top := toLONG (rect.top + 1) }
    else if has_autohide_appbar env ABE_RIGHT mon then
      { rect with right := toLONG (rect.right - 1) }
    else rect
  else rect

/-- The message `WM_NCCALCSIZE`. -/
def WM_NCCALCSIZE : Nat := 0x0083

/-- The function `handle_nccalcsize`: the rectangle left where lparam points, and the
calls issued.  `nonclient` is the proposed window rectangle, `client` what the default
computation wrote in its place. -/
def handle_nccalcsize (env : Env) (_data : window) (wparam : Nat) (lparam : Int) :
    RECT × List Call :=
  let nonclient := env.rectAt lparam
  let client := env.defNcCalcSize wparam nonclient
  let calls := [Call.DefWindowProcW WM_NCCALCSIZE wparam lparam]
  if env.IsMaximized then
    (autohide_compensation env (maximized_client nonclient client env.GetWindowInfo), calls)
  else
    (nonclient, calls)

/-! ## handle_nchittest -/

/-- The hit-test code `HTCLIENT` (interior). -/
def HTCLIENT : Int := 1
/-- The hit-test code `HTCAPTION`. -/
def HTCAPTION : Nat := 2
/-- The hit-test code `HTLEFT`. -/
def HTLEFT : Int := 10
/-- The hit-test code `HTRIGHT`. -/
def HTRIGHT : Int := 11
/-- The hit-test code `HTTOP`. -/
def HTTOP : Int := 12
/-- The hit-test code `HTTOPLEFT`. -/
def HTTOPLEFT : Int := 13
/-- The hit-test code `HTTOPRIGHT`. -/
def HTTOPRIGHT : Int := 14
/-- The hit-test code `HTBOTTOM`. -/
def HTBOTTOM : Int := 15
/-- The hit-test code `HTBOTTOMLEFT`. -/
def HTBOTTOMLEFT : Int := 16
/-- The hit-test code `HTBOTTOMRIGHT`. -/
def HTBOTTOMRIGHT : Int := 17

/-- The system metric index `SM_CXBORDER`. -/
def SM_CXBORDER : Nat := 5
/-- The system metric index `SM_CXFRAME`. -/
def SM_CXFRAME : Nat := 32
/-- The system metric index `SM_CXPADDEDBORDER`. -/
def SM_CXPADDEDBORDER : Nat := 92

/-- The local `frame_size` of `handle_nchittest` (an `int`). -/
def frame_size (env : Env) : Int :=
  toLONG (env.GetSystemMetrics SM_CXFRAME + env.GetSystemMetrics SM_CXPADDEDBORDER)

/-- The local `diagonal_width` of `handle_nchittest` (an `int`). -/
def diagonal_width (env : Env) : Int :=
  toLONG (frame_size env * 2 + env.GetSystemMetrics SM_CXBORDER)

/-- The function `handle_nchittest`.  `mouse.y < frame_size` and `mouse.x < ...` compare
a `LONG` with an `int` (signed).  In `mouse.x >= data->width - diagonal_width` the right
side is `unsigned`, computed modulo 2^32, and the `LONG` on the left is converted to
unsigned for the comparison. -/
def handle_nchittest (env : Env) (data : window) (x y : Int) : Int :=
  if env.IsMaximized then HTCLIENT
  else
    let mouse := env.ScreenToClient ⟨x, y⟩
    let frame_size := frame_size env
    let diagonal_width := diagonal_width env
    if mouse.y < frame_size then
      if mouse.x < diagonal_width then HTTOPLEFT
      else if toUINT mouse.x ≥ toUINT (data.width - diagonal_width) then HTTOPRIGHT
      else HTTOP
    else if toUINT mouse.y ≥ toUINT (data.height - frame_size) then
      if mouse.x < diagonal_width then HTBOTTOMLEFT
      else if toUINT mouse.x ≥ toUINT (data.width - diagonal_width) then HTBOTTOMRIGHT
      else HTBOTTOM
    else if mouse.x < frame_size then HTLEFT
    else if toUINT mouse.x ≥ toUINT (data.width - frame_size) then HTRIGHT
    else HTCLIENT

/-- The nested zone definition of the specification, read over the integers: `W - d`,
`W - f` and `H - f` are ordinary integer differences. -/
def hit_zone_reference (W H f d x y : Int) : Int :=
  if y < f then
    if x < d then HTTOPLEFT else if x ≥ W - d then HTTOPRIGHT else HTTOP
  else if y ≥ H - f then
    if x < d then HTBOTTOMLEFT else if x ≥ W - d then HTBOTTOMRIGHT else HTBOTTOM
  else if x < f then HTLEFT
  else if x ≥ W - f then HTRIGHT
  else HTCLIENT

/-! ## handle_windowposchanged -/

/-- The flag `SWP_FRAMECHANGED`. -/
def SWP_FRAMECHANGED : Nat := 0x0020

/-- The function `handle_windowposchanged`; `flags` is `pos->flags`.  The initialisers
of the invalidated rectangles are `unsigned` expressions converted to `LONG`. -/
def handle_windowposchanged (env : Env) (data : window) (flags : Nat) : window × List Call :=
  let client := env.GetClientRect
  let old_width := data.width
  let old_height := data.height
  let data := { data with width := toUINT client.right, height := toUINT client.bottom }
  let client_changed := data.width != old_width || data.height != old_height
  let r := if client_changed || (flags &&& SWP_FRAMECHANGED != 0) then update_region env data
           else (data, [])
  let data := r.1
  let invalidated :=
    if client_changed then
      [ (if data.width > old_width then
          Call.InvalidateRect
            ⟨toLONG (toUINT ((old_width : Int) - 1)), 0, toLONG old_width, toLONG old_height⟩
        else
          Call.InvalidateRect
            ⟨toLONG (toUINT ((data.width : Int) - 1)), 0, toLONG data.width, toLONG data.height⟩),
        (if data.height > old_height then
          Call.InvalidateRect
            ⟨0, toLONG (toUINT ((old_height : Int) - 1)), toLONG old_width, toLONG old_height⟩
        else
          Call.InvalidateRect
            ⟨0, toLONG (toUINT ((data.height : Int) - 1)), toLONG data.width, toLONG data.height⟩) ]
    else []
  (data, r.2 ++ invalidated)

/-! ## The window procedure -/

/-- The message `WM_DESTROY`. -/
def WM_DESTROY : Nat := 0x0002
/-- The message `WM_SETTEXT`. -/
def WM_SETTEXT : Nat := 0x000C
/-- The message `WM_PAINT`. -/
def WM_PAINT : Nat := 0x000F
/-- The message `WM_CLOSE`. -/
def WM_CLOSE : Nat := 0x0010
/-- The message `WM_WINDOWPOSCHANGED`. -/
def WM_WINDOWPOSCHANGED : Nat := 0x0047
/-- The message `WM_SETICON`. -/
def WM_SETICON : Nat := 0x0080
/-- The message `WM_NCCREATE`. -/
def WM_NCCREATE : Nat := 0x0081
/-- The message `WM_NCHITTEST`. -/
def WM_NCHITTEST : Nat := 0x0084
/-- The message `WM_NCPAINT`. -/
def WM_NCPAINT : Nat := 0x0085
/-- The message `WM_NCACTIVATE`. -/
def WM_NCACTIVATE : Nat := 0x0086
/-- The message `WM_NCLBUTTONDOWN`. -/
def WM_NCLBUTTONDOWN : Nat := 0x00A1
/-- The undocumented message `WM_NCUAHDRAWCAPTION`, defined by the program itself. -/
def WM_NCUAHDRAWCAPTION : Nat := 0x00AE
/-- The undocumented message `WM_NCUAHDRAWFRAME`, defined by the program itself. -/
def WM_NCUAHDRAWFRAME : Nat := 0x00AF
/-- The message `WM_KEYDOWN`. -/
def WM_KEYDOWN : Nat := 0x0100
/-- The message `WM_LBUTTONDOWN`. -/
def WM_LBUTTONDOWN : Nat := 0x0201
/-- The message `WM_THEMECHANGED`. -/
def WM_THEMECHANGED : Nat := 0x031A
/-- The message `WM_DWMCOMPOSITIONCHANGED`. -/
def WM_DWMCOMPOSITIONCHANGED : Nat := 0x031E

/-- The index `GWL_STYLE`. -/
def GWL_STYLE : Int := -16
/-- The style bit `WS_VISIBLE`. -/
def WS_VISIBLE : Nat := 0x10000000

/-- The conversion `(int)(short)` of a 16-bit word. -/
def toSHORT (v : Int) : Int := (v + 32768) % 65536 - 32768

/-- The macro `GET_X_LPARAM`: the low word, sign-extended. -/
def GET_X_LPARAM (lparam : Int) : Int := toSHORT (lparam % 65536)

/-- The macro `GET_Y_LPARAM`: the high word of the low 32 bits, sign-extended. -/
def GET_Y_LPARAM (lparam : Int) : Int := toSHORT (lparam / 65536 % 65536)

/-- The function `handle_keydown`, reduced to what the window procedure observes: the
keys H, I, T and M run a diagnostic command (recorded as one `TestCommand`) and are
reported handled, every other key is not. -/
def handle_keydown (_env : Env) (_data : window) (key : Nat) : Bool × List Call :=
  if key = 72 ∨ key = 73 ∨ key = 84 ∨ key = 77 then (true, [Call.TestCommand key])
  else (false, [])

/-- The function `handle_paint`: the four one-pixel bars along the client border. -/
def handle_paint (data : window) : List Call :=
  [ Call.FillRect ⟨0, 0, 1, toLONG data.height⟩,
    Call.FillRect ⟨0, 0, toLONG data.width, 1⟩,
    Call.FillRect ⟨toLONG (toUINT ((data.width : Int) - 1)), 0, toLONG data.width,
      toLONG data.height⟩,
    Call.FillRect ⟨0, toLONG (toUINT ((data.height : Int) - 1)), toLONG data.width,
      toLONG data.height⟩ ]

/-- The function `handle_message_invisible`: default handling with `WS_VISIBLE` cleared
for its duration. -/
def handle_message_invisible (env : Env) (msg wparam : Nat) (lparam : Int) :
    Int × List Call :=
  let old_style := env.style
  (env.DefWindowProcW msg wparam lparam,
   [ Call.SetWindowLongPtrW GWL_STYLE (old_style - (old_style &&& WS_VISIBLE)),
     Call.DefWindowProcW msg wparam lparam,
     Call.SetWindowLongPtrW GWL_STYLE old_style ])

/-- The function `handle_nccreate`: the state found in `lpCreateParams` becomes the
state attached to the window. -/
def handle_nccreate (env : Env) (lparam : Int) : Option window :=
  env.createParamsAt lparam

/-- What one run of the window procedure produces: its return value, the state attached
to the window afterwards, the calls issued, and the rectangle written through lparam
(by `WM_NCCALCSIZE` only). -/
structure Outcome where
  result : Int
  data : Option window
  calls : List Call
  rect : Option RECT
deriving DecidableEq, Repr

/-- The tail of `borderless_window_proc`, reached by every `break` and by the messages
the switch does not list: the return value of `DefWindowProcW`. -/
def default_handling (env : Env) (data : Option window) (calls : List Call)
    (msg wparam : Nat) (lparam : Int) : Outcome :=
  ⟨env.DefWindowProcW msg wparam lparam, data,
   calls ++ [Call.DefWindowProcW msg wparam lparam], none⟩

/-- The function `borderless_window_proc`.  `attached` is the state found in the user
data slot of the window, `none` when the slot is still null. -/
def borderless_window_proc (env : Env) (attached : Option window) (msg wparam : Nat)
    (lparam : Int) : Outcome :=
  match attached with
  | none =>
    let now := if msg = WM_NCCREATE then handle_nccreate env lparam else none
    default_handling env now [] msg wparam lparam
  | some data =>
    if msg = WM_CLOSE then
      ⟨0, some data, [Call.DestroyWindow], none⟩
    else if msg = WM_DESTROY then
      ⟨0, some data, [Call.PostQuitMessage 0], none⟩
    else if msg = WM_DWMCOMPOSITIONCHANGED then
      let r := handle_compositionchanged env data
      ⟨0, some r.1, r.2, none⟩
    else if msg = WM_KEYDOWN then
      let r := handle_keydown env data (toUINT wparam)
      if r.1 then ⟨0, some data, r.2, none⟩
      else default_handling env (some data) r.2 msg wparam lparam
    else if msg = WM_LBUTTONDOWN then
      ⟨0, some data, [Call.ReleaseCapture, Call.SendMessageW WM_NCLBUTTONDOWN HTCAPTION 0],
       none⟩
    else if msg = WM_NCACTIVATE then
      ⟨env.DefWindowProcW msg wparam (-1), some data, [Call.DefWindowProcW msg wparam (-1)],
       none⟩
    else if msg = WM_NCCALCSIZE then
      let r := handle_nccalcsize env data wparam lparam
      ⟨0, some data, r.2, some r.1⟩
    else if msg = WM_NCHITTEST then
      ⟨handle_nchittest env data (GET_X_LPARAM lparam) (GET_Y_LPARAM lparam), some data, [],
       none⟩
    else if msg = WM_NCPAINT then
      if !data.composition_enabled then ⟨0, some data, [], none⟩
      else default_handling env (some data) [] msg wparam lparam
    else if msg = WM_NCUAHDRAWCAPTION ∨ msg = WM_NCUAHDRAWFRAME then
      ⟨0, some data, [], none⟩
    else if msg = WM_PAINT then
      ⟨0, some data, handle_paint data, none⟩
    else if msg = WM_SETICON ∨ msg = WM_SETTEXT then
      if !data.composition_enabled && !data.theme_enabled then
        let r := handle_message_invisible env msg wparam lparam
        ⟨r.1, some data, r.2, none⟩
      else default_handling env (some data) [] msg wparam lparam
    else if msg = WM_THEMECHANGED then
      default_handling env (some (handle_themechanged env data)) [] msg wparam lparam
    else if msg = WM_WINDOWPOSCHANGED then
      let r := handle_windowposchanged env data (env.windowposFlagsAt lparam)
      ⟨0, some r.1, r.2, none⟩
    else
      default_handling env (some data) [] msg wparam lparam

/-! ## Concrete systems used to instantiate the theorems -/

/-- A system with a restored (not maximized) window of 400 x 300 at screen position
(100,100), on a 1920 x 1080 monitor at the origin, composition and theme off, metrics
giving `frame_size = 8` and `diagonal_width = 19`, and no auto-hide appbar. -/
def restoredEnv : Env where
  IsMaximized := false
  GetWindowInfo := ⟨⟨100, 100, 500, 400⟩, ⟨100, 100, 500, 400⟩, 8⟩
  GetClientRect := ⟨0, 0, 400, 300⟩
  rcMonitor := ⟨0, 0, 1920, 1080⟩
  IsWindows8Point1OrGreater := true
  autoHideBarEx := fun _ _ => 0
  autoHideBar := fun _ => 0
  defNcCalcSize := fun _ r => ⟨r.left + 8, r.top + 31, r.right - 8, r.bottom - 8⟩
  DefWindowProcW := fun _ _ _ => 7
  ScreenToClient := fun p => ⟨p.x - 100, p.y - 100⟩
  GetSystemMetrics := fun i => if i = SM_CXBORDER then 3 else if i = SM_CXFRAME then 4
    else if i = SM_CXPADDEDBORDER then 4 else 0
  DwmIsCompositionEnabled := false
  IsThemeActive := false
  style := 0x10CF0000
  rectAt := fun _ => ⟨100, 100, 500, 400⟩
  windowposFlagsAt := fun _ => 0
  createParamsAt := fun _ => none

/-- The same system with the window maximized on the 1920 x 1080 monitor: the window
rectangle overhangs the work area by the 8-pixel border, and the default computation
leaves a client rectangle below a 23-pixel caption. -/
def maximizedEnv : Env :=
  { restoredEnv with
    IsMaximized := true
    GetWindowInfo := ⟨⟨-8, -8, 1928, 1048⟩, ⟨0, 0, 1920, 1040⟩, 8⟩
    GetClientRect := ⟨0, 0, 1920, 1040⟩
    rectAt := fun _ => ⟨-8, -8, 1928, 1048⟩
    defNcCalcSize := fun _ r => ⟨r.left + 8, r.top + 31, r.right - 8, r.bottom - 8⟩ }

/-- A state as `calloc` leaves it: everything zero. -/
def freshData : window := ⟨0, 0, 0, RECT.zero, false, false⟩

/-- The rectangle encloses no area, in the words of the specification: its right edge
is not beyond its left edge, or its bottom edge not beyond its top edge. -/
def encloses_no_area (r : RECT) : Prop := r.right ≤ r.left ∨ r.bottom ≤ r.top

instance (r : RECT) : Decidable (encloses_no_area r) := by
  unfold encloses_no_area; infer_instance

/-- A maximized window whose client rectangle has zero width. -/
def zeroWidthClientEnv : Env :=
  { maximizedEnv with GetWindowInfo := ⟨⟨-8, -8, 1928, 1048⟩, ⟨0, 0, 0, 1040⟩, 8⟩ }

/-! ## Lemmas on the machine integers and on EqualRect -/

theorem EqualRect_iff (a b : RECT) : EqualRect a b = true ↔ a = b := by
  cases a; cases b
  simp [EqualRect]
  tauto

theorem EqualRect_self (a : RECT) : EqualRect a a = true :=
  (EqualRect_iff a a).2 rfl

theorem toLONG_of_isLONG {v : Int} (h : isLONG v) : toLONG v = v := by
  unfold isLONG LONG_MIN LONG_MAX at h
  unfold toLONG UINT_RANGE
  omega

theorem toUINT_of_range {v : Int} (h0 : 0 ≤ v) (h1 : v < 4294967296) :
    (toUINT v : Int) = v := by
  unfold toUINT UINT_RANGE
  omega

/-! ## Clip region: update_region -/

/-- C3. After `update_region` the stored rectangle is, in this priority: for a
maximized window the client rectangle relative to the top-left corner of the window
rectangle, whatever `composition_enabled` is (the four differences being representable
as `LONG`, outside of which the C subtraction is undefined); for a window that is not
maximized with composition disabled the rectangle (0,0,32767,32767); with composition
enabled the all-zero rectangle, and every call issued then passes the null region. -/
theorem update_region_policy (env : Env) (data : window)
    (hdef : env.IsMaximized = true →
      isLONG (env.GetWindowInfo.rcClient.left - env.GetWindowInfo.rcWindow.left) ∧
      isLONG (env.GetWindowInfo.rcClient.top - env.GetWindowInfo.rcWindow.top) ∧
      isLONG (env.GetWindowInfo.rcClient.right - env.GetWindowInfo.rcWindow.left) ∧
      isLONG (env.GetWindowInfo.rcClient.bottom - env.GetWindowInfo.rcWindow.top)) :
    (env.IsMaximized = true →
      (update_region env data).1.rgn =
        ⟨env.GetWindowInfo.rcClient.left - env.GetWindowInfo.rcWindow.left,
         env.GetWindowInfo.rcClient.top - env.GetWindowInfo.rcWindow.top,
         env.GetWindowInfo.rcClient.right - env.GetWindowInfo.rcWindow.left,
         env.GetWindowInfo.rcClient.bottom - env.GetWindowInfo.rcWindow.top⟩) ∧
    (env.IsMaximized = false → data.composition_enabled = false →
      (update_region env data).1.rgn = ⟨0, 0, 32767, 32767⟩) ∧
    (env.IsMaximized = false → data.composition_enabled = true →
      (update_region env data).1.rgn = ⟨0, 0, 0, 0⟩ ∧
      ∀ c ∈ (update_region env data).2, c = Call.SetWindowRgn none) := by
  have hrgn : (update_region env data).1.rgn = computed_region env data := by
    unfold update_region
    dsimp only
    split
    · rfl
    · split <;> rfl
  refine ⟨fun hmax => ?_, fun hmax hc => ?_, fun hmax hc => ?_⟩
  · obtain ⟨h1, h2, h3, h4⟩ := hdef hmax
    rw [hrgn]
    simp only [computed_region, hmax, if_true]
    rw [toLONG_of_isLONG h1, toLONG_of_isLONG h2, toLONG_of_isLONG h3, toLONG_of_isLONG h4]
  · rw [hrgn]
    simp [computed_region, hmax, hc]
  · refine ⟨?_, ?_⟩
    · rw [hrgn]
      simp [computed_region, hmax, hc, RECT.zero]
    · intro c hcmem
      have hz : computed_region env data = RECT.zero := by
        simp [computed_region, hmax, hc]
      unfold update_region at hcmem
      simp only [hz] at hcmem
      split at hcmem
      · simp at hcmem
      · rw [if_pos (EqualRect_self _)] at hcmem
        simpa using hcmem

/-- Witness of C3 on the maximized sample system: the stored rectangle is the client
rectangle (0,0,1920,1040) moved by the window origin (-8,-8). -/
theorem update_region_policy_witness :
    (update_region maximizedEnv freshData).1.rgn = ⟨8, 8, 1928, 1048⟩ :=
  (update_region_policy maximizedEnv freshData (fun _ => by decide)).1 rfl

theorem update_region_rgn (env : Env) (data : window) :
    (update_region env data).1 = { data with rgn := computed_region env data } := by
  unfold update_region
  dsimp only
  split
  · rfl
  · split <;> rfl

theorem update_region_calls_of_eq (env : Env) (data : window)
    (h : computed_region env data = data.rgn) : (update_region env data).2 = [] := by
  unfold update_region
  dsimp only
  rw [h, if_pos (EqualRect_self _)]

/-- C6. For every state and every fixed system, a second `update_region` right after
a first one issues no call and leaves the state as the first one left it, so that the
two runs together issue at most one `SetWindowRgn`. -/
theorem update_region_idempotent (env : Env) (data : window) :
    (update_region env (update_region env data).1).2 = [] ∧
    (update_region env (update_region env data).1).1 = (update_region env data).1 ∧
    ((update_region env data).2 ++ (update_region env (update_region env data).1).2).length
      ≤ 1 := by
  have hc : computed_region env (update_region env data).1 = computed_region env data := by
    rw [update_region_rgn]
    rfl
  have h2 : (update_region env (update_region env data).1).2 = [] := by
    apply update_region_calls_of_eq
    rw [hc, update_region_rgn]
  refine ⟨h2, ?_, ?_⟩
  · rw [update_region_rgn env (update_region env data).1, hc, update_region_rgn]
  · rw [h2, List.append_nil]
    unfold update_region
    dsimp only
    split
    · simp
    · split <;> simp

/-- C7, as stated, fails.  For a maximized window whose client rectangle has zero
width the computed rectangle (8,8,8,1048) encloses no area, and yet: with no mask
applied before, `SetWindowRgn` is called; and with the mask (0,0,32767,32767) applied
before, the call sets that rectangle instead of clearing the mask. -/
theorem update_region_empty_not_none :
    encloses_no_area (computed_region zeroWidthClientEnv freshData) ∧
    freshData.rgn = RECT.zero ∧
    (update_region zeroWidthClientEnv freshData).2
      = [Call.SetWindowRgn (some ⟨8, 8, 8, 1048⟩)] ∧
    (update_region zeroWidthClientEnv { freshData with rgn := ⟨0, 0, 32767, 32767⟩ }).2
      = [Call.SetWindowRgn (some ⟨8, 8, 8, 1048⟩)] := by
  refine ⟨by decide, rfl, by decide, by decide⟩

/-- C7, amended.  `update_region` treats the all-zero rectangle and the no-mask state
as one: when the computed rectangle is (0,0,0,0) and the stored one is too, no call is
issued; when the computed rectangle is (0,0,0,0) and the stored one is not, the one call
issued clears the mask; any other computed rectangle that differs from the stored one,
empty or not, is set as a rectangle. -/
theorem update_region_zero_is_none (env : Env) (data : window) :
    (computed_region env data = RECT.zero → data.rgn = RECT.zero →
      (update_region env data).2 = []) ∧
    (computed_region env data = RECT.zero → data.rgn ≠ RECT.zero →
      (update_region env data).2 = [Call.SetWindowRgn none]) ∧
    (computed_region env data ≠ RECT.zero → computed_region env data ≠ data.rgn →
      (update_region env data).2 = [Call.SetWindowRgn (some (computed_region env data))]) := by
  refine ⟨fun hz ho => ?_, fun hz ho => ?_, fun hz ho => ?_⟩
  · exact update_region_calls_of_eq env data (by rw [hz, ho])
  · have hne : EqualRect RECT.zero data.rgn = false := by
      rw [Bool.eq_false_iff]
      intro h
      exact ho ((EqualRect_iff _ _).1 h).symm
    unfold update_region
    dsimp only
    rw [hz, hne]
    simp [EqualRect_self]
  · have hne : EqualRect (computed_region env data) data.rgn = false := by
      rw [Bool.eq_false_iff]
      intro h
      exact ho ((EqualRect_iff _ _).1 h)
    have hnz : EqualRect (computed_region env data) RECT.zero = false := by
      rw [Bool.eq_false_iff]
      intro h
      exact hz ((EqualRect_iff _ _).1 h)
    unfold update_region
    dsimp only
    rw [hne, hnz]
    simp

/-- Witness of the amended C7: on the restored sample system with composition enabled
the computed rectangle is all-zero; with nothing stored no call is issued. -/
theorem update_region_zero_is_none_witness :
    computed_region restoredEnv { freshData with composition_enabled := true } = RECT.zero ∧
    (update_region restoredEnv { freshData with composition_enabled := true }).2 = [] :=
  ⟨by decide,
   (update_region_zero_is_none restoredEnv { freshData with composition_enabled := true }).1
     (by decide) rfl⟩

/-! ## Non-client geometry: handle_nccalcsize -/

/-- C1. When the window is not maximized, for every proposed window rectangle `R` and
whatever rectangle the default computation (`env.defNcCalcSize`, arbitrary) writes in
its place, the rectangle `handle_nccalcsize` leaves is `R`, edge by edge, and hence not
the default one when that differs from `R`. -/
theorem nccalcsize_restored_keeps_original (env : Env) (data : window) (wparam : Nat)
    (lparam : Int) (R : RECT) (hmax : env.IsMaximized = false)
    (hR : env.rectAt lparam = R) :
    (handle_nccalcsize env data wparam lparam).1 = R ∧
    (handle_nccalcsize env data wparam lparam).1.left = R.left ∧
    (handle_nccalcsize env data wparam lparam).1.top = R.top ∧
    (handle_nccalcsize env data wparam lparam).1.right = R.right ∧
    (handle_nccalcsize env data wparam lparam).1.bottom = R.bottom ∧
    (env.defNcCalcSize wparam R ≠ R →
      (handle_nccalcsize env data wparam lparam).1 ≠ env.defNcCalcSize wparam R) := by
  have h : (handle_nccalcsize env data wparam lparam).1 = R := by
    simp [handle_nccalcsize, hmax, hR]
  rw [h]
  exact ⟨rfl, rfl, rfl, rfl, rfl, fun hne heq => hne heq.symm⟩

/-- Witness of C1 on the restored sample system: the proposed rectangle
(100,100,500,400) comes back although the default computation wrote
(108,131,492,392). -/
theorem nccalcsize_restored_keeps_original_witness :
    restoredEnv.defNcCalcSize 1 ⟨100, 100, 500, 400⟩ = ⟨108, 131, 492, 392⟩ ∧
    (handle_nccalcsize restoredEnv freshData 1 0).1 = ⟨100, 100, 500, 400⟩ :=
  ⟨by decide,
   (nccalcsize_restored_keeps_original restoredEnv freshData 1 0 ⟨100, 100, 500, 400⟩
     rfl rfl).1⟩

/-- C5, as stated, fails.  On the maximized sample system the proposed rectangle is
(-8,-8,1928,1048), the default computation writes (0,23,1920,1040) and the border
metric is 8: the rectangle produced has top 0, the top of the proposed rectangle plus
8, and not 31, the top of the default rectangle plus 8.  No auto-hide compensation
takes part, the result differs from the monitor rectangle. -/
theorem nccalcsize_maximized_top_not_from_default :
    maximizedEnv.IsMaximized = true ∧
    maximizedEnv.defNcCalcSize 1 (maximizedEnv.rectAt 0) = ⟨0, 23, 1920, 1040⟩ ∧
    maximizedEnv.GetWindowInfo.cyWindowBorders = 8 ∧
    (handle_nccalcsize maximizedEnv freshData 1 0).1 = ⟨0, 0, 1920, 1040⟩ ∧
    (maximized_client (maximizedEnv.rectAt 0)
        (maximizedEnv.defNcCalcSize 1 (maximizedEnv.rectAt 0)) maximizedEnv.GetWindowInfo).top
      ≠ (maximizedEnv.defNcCalcSize 1 (maximizedEnv.rectAt 0)).top
          + maximizedEnv.GetWindowInfo.cyWindowBorders := by
  refine ⟨rfl, by decide, rfl, by decide, by decide⟩

/-- C5, amended.  When the window is maximized, the rectangle `handle_nccalcsize`
produces before any auto-hide compensation is the default rectangle `D` with only its
top edge replaced: left, right and bottom are those of `D`, and top is the top of the
proposed rectangle `R` (not of `D`) plus the border metric, reduced to a `LONG`; when
that sum is representable it is the sum itself. -/
theorem nccalcsize_maximized_top_from_original (env : Env) (data : window) (wparam : Nat)
    (lparam : Int) (R D : RECT) (hmax : env.IsMaximized = true)
    (hR : env.rectAt lparam = R) (hD : env.defNcCalcSize wparam R = D) :
    (maximized_client R D env.GetWindowInfo).left = D.left ∧
    (maximized_client R D env.GetWindowInfo).right = D.right ∧
    (maximized_client R D env.GetWindowInfo).bottom = D.bottom ∧
    (maximized_client R D env.GetWindowInfo).top
      = toLONG (R.top + env.GetWindowInfo.cyWindowBorders) ∧
    (isLONG (R.top + env.GetWindowInfo.cyWindowBorders) →
      (maximized_client R D env.GetWindowInfo).top
        = R.top + env.GetWindowInfo.cyWindowBorders) ∧
    (handle_nccalcsize env data wparam lparam).1
      = autohide_compensation env (maximized_client R D env.GetWindowInfo) := by
  refine ⟨rfl, rfl, rfl, rfl, fun h => ?_, ?_⟩
  · show toLONG _ = _
    exact toLONG_of_isLONG h
  · simp [handle_nccalcsize, hmax, hR, hD]

/-- Witness of the amended C5 on the maximized sample system: the top edge is
-8 + 8 = 0. -/
theorem nccalcsize_maximized_top_from_original_witness :
    (maximized_client ⟨-8, -8, 1928, 1048⟩ ⟨0, 23, 1920, 1040⟩
      maximizedEnv.GetWindowInfo).top = 0 :=
  (nccalcsize_maximized_top_from_original maximizedEnv freshData 1 0 ⟨-8, -8, 1928, 1048⟩
    ⟨0, 23, 1920, 1040⟩ rfl rfl (by decide)).2.2.2.2.1 (by decide)

/-- From Windows 8.1 on, `has_autohide_appbar` reports what the per-monitor query of the
shell answers. -/
theorem has_autohide_appbar_per_monitor (env : Env) (edge : Nat) (mon : RECT)
    (h : env.IsWindows8Point1OrGreater = true) :
    has_autohide_appbar env edge mon = (env.autoHideBarEx edge mon != 0) := by
  simp [has_autohide_appbar, h]

/-- Before Windows 8.1, `has_autohide_appbar` reports no bar for a monitor whose origin
is not (0,0), and otherwise what the query for the primary monitor answers. -/
theorem has_autohide_appbar_legacy (env : Env) (edge : Nat) (mon : RECT)
    (h : env.IsWindows8Point1OrGreater = false) :
    (mon.left ≠ 0 ∨ mon.top ≠ 0 → has_autohide_appbar env edge mon = false) ∧
    (mon.left = 0 → mon.top = 0 →
      has_autohide_appbar env edge mon = (env.autoHideBar edge != 0)) := by
  refine ⟨fun hm => ?_, fun hl ht => ?_⟩
  · rcases hm with hm | hm <;> simp [has_autohide_appbar, h, hm]
  · simp [has_autohide_appbar, h, hl, ht]

/-- C2, as stated, fails.  On the restored sample system (`frame_size = 8`,
`diagonal_width = 19`) with a client area of 10 x 10, the screen point (105,105) is the
window-local point (5, H/2) = (5,5), and it resolves to the top-left corner, not to
the left edge. -/
theorem nchittest_small_window_left_edge :
    restoredEnv.IsMaximized = false ∧
    frame_size restoredEnv = 8 ∧ diagonal_width restoredEnv = 19 ∧
    restoredEnv.ScreenToClient ⟨105, 105⟩ = ⟨5, ((10 : Nat) : Int) / 2⟩ ∧
    handle_nchittest restoredEnv { freshData with width := 10, height := 10 } 105 105
      = HTTOPLEFT ∧
    handle_nchittest restoredEnv { freshData with width := 10, height := 10 } 105 105
      ≠ HTLEFT := by
  refine ⟨rfl, by decide, by decide, by decide, by decide, by decide⟩

/-- C2, amended.  A maximized window resolves every point to the interior.  For a
window that is not maximized, with `frame_size = 8`, `diagonal_width = 19` and a client
area of width `W` at least 39 and height `H` at least 17, the window-local point (5,5)
resolves to the top-left corner, (5, H/2) to the left edge, (W/2, 5) to the top edge
and (W/2, H/2) to the interior. -/
theorem nchittest_partition (env : Env) (data : window) :
    (env.IsMaximized = true → ∀ x y : Int, handle_nchittest env data x y = HTCLIENT) ∧
    (env.IsMaximized = false → frame_size env = 8 → diagonal_width env = 19 →
      39 ≤ data.width → data.width < 4294967296 →
      17 ≤ data.height → data.height < 4294967296 →
      ∀ x y : Int,
        (env.ScreenToClient ⟨x, y⟩ = ⟨5, 5⟩ → handle_nchittest env data x y = HTTOPLEFT) ∧
        (env.ScreenToClient ⟨x, y⟩ = ⟨5, (data.height : Int) / 2⟩ →
          handle_nchittest env data x y = HTLEFT) ∧
        (env.ScreenToClient ⟨x, y⟩ = ⟨(data.width : Int) / 2, 5⟩ →
          handle_nchittest env data x y = HTTOP) ∧
        (env.ScreenToClient ⟨x, y⟩ = ⟨(data.width : Int) / 2, (data.height : Int) / 2⟩ →
          handle_nchittest env data x y = HTCLIENT)) := by
  refine ⟨fun hmax x y => by simp [handle_nchittest, hmax], ?_⟩
  intro hmax hf hd hW hW2 hH hH2 x y
  have hW1 : (39 : Int) ≤ data.width := by exact_mod_cast hW
  have hW3 : (data.width : Int) < 4294967296 := by exact_mod_cast hW2
  have hH1 : (17 : Int) ≤ data.height := by exact_mod_cast hH
  have hH3 : (data.height : Int) < 4294967296 := by exact_mod_cast hH2
  refine ⟨fun hp => ?_, fun hp => ?_, fun hp => ?_, fun hp => ?_⟩
  · simp [handle_nchittest, hmax, hf, hd, hp]
  · have h1 : ¬ ((data.height : Int) / 2 < 8) := by omega
    have h2 : ¬ (toUINT ((data.height : Int) - 8) ≤ toUINT ((data.height : Int) / 2)) := by
      unfold toUINT UINT_RANGE
      omega
    simp [handle_nchittest, hmax, hf, hd, hp, h1, h2]
  · have h1 : ¬ ((data.width : Int) / 2 < 19) := by omega
    have h2 : ¬ (toUINT ((data.width : Int) - 19) ≤ toUINT ((data.width : Int) / 2)) := by
      unfold toUINT UINT_RANGE
      omega
    simp [handle_nchittest, hmax, hf, hd, hp, h1, h2]
  · have h1 : ¬ ((data.height : Int) / 2 < 8) := by omega
    have h2 : ¬ (toUINT ((data.height : Int) - 8) ≤ toUINT ((data.height : Int) / 2)) := by
      unfold toUINT UINT_RANGE
      omega
    have h3 : ¬ ((data.width : Int) / 2 < 8) := by omega
    have h4 : ¬ (toUINT ((data.width : Int) - 8) ≤ toUINT ((data.width : Int) / 2)) := by
      unfold toUINT UINT_RANGE
      omega
    simp [handle_nchittest, hmax, hf, hd, hp, h1, h2, h3, h4]

/-- Witness of the amended C2 on the restored sample system with a client area of
400 x 300: the screen point (105,250) is the window-local point (5, 300/2) and resolves
to the left edge. -/
theorem nchittest_partition_witness :
    restoredEnv.ScreenToClient ⟨105, 250⟩ = ⟨5, ((300 : Nat) : Int) / 2⟩ ∧
    handle_nchittest restoredEnv { freshData with width := 400, height := 300 } 105 250
      = HTLEFT :=
  ⟨by decide,
   ((nchittest_partition restoredEnv { freshData with width := 400, height := 300 }).2
      rfl (by decide) (by decide) (by decide) (by decide) (by decide) (by decide)
      105 250).2.1 (by decide)⟩

/-- C10, as stated, fails.  In the initial state (`W = H = 0`) with `f = 8` and
`d = 19`, the window-local point (100,5) resolves to the top edge, while the
definition over the integers gives the top-right corner (100 >= 0 - 19): the program
computes `W - d` modulo 2^32. -/
theorem nchittest_differs_from_integer_reference :
    restoredEnv.IsMaximized = false ∧
    frame_size restoredEnv = 8 ∧ diagonal_width restoredEnv = 19 ∧
    restoredEnv.ScreenToClient ⟨200, 105⟩ = ⟨100, 5⟩ ∧
    handle_nchittest restoredEnv freshData 200 105 = HTTOP ∧
    hit_zone_reference 0 0 8 19 100 5 = HTTOPRIGHT ∧
    handle_nchittest restoredEnv freshData 200 105 ≠ hit_zone_reference 0 0 8 19 100 5 := by
  refine ⟨rfl, by decide, by decide, by decide, by decide, by decide, by decide⟩

/-- C10, amended.  For a window that is not maximized, with cached width `W` and height
`H` (unsigned 32-bit), metrics `f = frame_size` and `d = diagonal_width` such that
`0 ≤ f ≤ W`, `f ≤ H` and `0 ≤ d ≤ W`, and every window-local point (x,y) with `LONG`
coordinates, negative ones included, `handle_nchittest` returns the zone of the nested
definition over the integers. -/
theorem nchittest_eq_integer_reference (env : Env) (data : window) (x y : Int)
    (hmax : env.IsMaximized = false)
    (hW : data.width < 4294967296) (hH : data.height < 4294967296)
    (hf0 : 0 ≤ frame_size env) (hfW : frame_size env ≤ data.width)
    (hfH : frame_size env ≤ data.height)
    (hd0 : 0 ≤ diagonal_width env) (hdW : diagonal_width env ≤ data.width)
    (hx : isLONG (env.ScreenToClient ⟨x, y⟩).x) (hy : isLONG (env.ScreenToClient ⟨x, y⟩).y) :
    handle_nchittest env data x y
      = hit_zone_reference data.width data.height (frame_size env) (diagonal_width env)
          (env.ScreenToClient ⟨x, y⟩).x (env.ScreenToClient ⟨x, y⟩).y := by
  have hW3 : (data.width : Int) < 4294967296 := by exact_mod_cast hW
  have hH3 : (data.height : Int) < 4294967296 := by exact_mod_cast hH
  unfold isLONG LONG_MIN LONG_MAX at hx hy
  have key : ∀ v w : Int, 0 ≤ v → v ≤ 2147483647 → 0 ≤ w → w < 4294967296 →
      (toUINT v ≥ toUINT w ↔ v ≥ w) := by
    intro v w hv0 hv1 hw0 hw1
    unfold toUINT UINT_RANGE
    omega
  unfold handle_nchittest hit_zone_reference
  simp only [hmax, Bool.false_eq_true, if_false]
  generalize env.ScreenToClient ⟨x, y⟩ = mouse at hx hy
  generalize frame_size env = f at hf0 hfW hfH
  generalize diagonal_width env = d at hd0 hdW
  by_cases hy1 : mouse.y < f
  · simp only [hy1, if_true]
    by_cases hx1 : mouse.x < d
    · simp only [hx1, if_true]
    · simp only [hx1, if_false]
      have := key mouse.x (data.width - d) (by omega) (by omega) (by omega) (by omega)
      simp only [this]
  · simp only [hy1, if_false]
    have hyk := key mouse.y (data.height - f) (by omega) (by omega) (by omega) (by omega)
    simp only [hyk]
    by_cases hy2 : mouse.y ≥ (data.height : Int) - f
    · simp only [hy2, if_true]
      by_cases hx1 : mouse.x < d
      · simp only [hx1, if_true]
      · simp only [hx1, if_false]
        have := key mouse.x (data.width - d) (by omega) (by omega) (by omega) (by omega)
        simp only [this]
    · simp only [hy2, if_false]
      by_cases hx2 : mouse.x < f
      · simp only [hx2, if_true]
      · simp only [hx2, if_false]
        have := key mouse.x (data.width - f) (by omega) (by omega) (by omega) (by omega)
        simp only [this]

/-- Witness of the amended C10 on the restored sample system with a client area of
400 x 300 and a point left of and above the client area, window-local (-3,-2): both
definitions give the top-left corner. -/
theorem nchittest_eq_integer_reference_witness :
    restoredEnv.ScreenToClient ⟨97, 98⟩ = ⟨-3, -2⟩ ∧
    handle_nchittest restoredEnv { freshData with width := 400, height := 300 } 97 98
      = hit_zone_reference 400 300 8 19 (-3) (-2) :=
  ⟨by decide,
   nchittest_eq_integer_reference restoredEnv { freshData with width := 400, height := 300 }
     97 98 rfl (by decide) (by decide) (by decide) (by decide) (by decide) (by decide)
     (by decide) (by decide) (by decide)⟩

/-! ## Resize reaction: handle_windowposchanged -/

/-- C8. For every state with cached width `W0` and height `H0`, a size/position
notification whose new client width `W1` (the right edge of the client rectangle, as
`unsigned`) exceeds `W0` makes `handle_windowposchanged` invalidate, right after the
calls of `update_region`, the strip with x from `W0 - 1` (computed modulo 2^32, then
stored in a `LONG`) to `W0` and y from 0 to the old height `H0`, whatever the new height
is; afterwards the cached width and height are the new client dimensions.  For `W0`
and `H0` up to `LONG_MAX`, `W0 = 0` included, the strip is (W0 - 1, 0, W0, H0) as
integers. -/
theorem windowposchanged_width_grows (env : Env) (data : window) (flags : Nat)
    (hgrow : data.width < toUINT env.GetClientRect.right) :
    (∃ other : RECT,
      (handle_windowposchanged env data flags).2 =
        (update_region env { data with width := toUINT env.GetClientRect.right,
                                       height := toUINT env.GetClientRect.bottom }).2 ++
        [Call.InvalidateRect
           ⟨toLONG (toUINT ((data.width : Int) - 1)), 0, toLONG data.width,
            toLONG data.height⟩,
         Call.InvalidateRect other]) ∧
    Call.InvalidateRect
        ⟨toLONG (toUINT ((data.width : Int) - 1)), 0, toLONG data.width, toLONG data.height⟩
      ∈ (handle_windowposchanged env data flags).2 ∧
    (handle_windowposchanged env data flags).1.width = toUINT env.GetClientRect.right ∧
    (handle_windowposchanged env data flags).1.height = toUINT env.GetClientRect.bottom ∧
    (0 ≤ env.GetClientRect.right → 0 ≤ env.GetClientRect.bottom →
      isLONG env.GetClientRect.right → isLONG env.GetClientRect.bottom →
      ((handle_windowposchanged env data flags).1.width : Int) = env.GetClientRect.right ∧
      ((handle_windowposchanged env data flags).1.height : Int) = env.GetClientRect.bottom) ∧
    ((data.width : Int) ≤ LONG_MAX → (data.height : Int) ≤ LONG_MAX →
      (⟨toLONG (toUINT ((data.width : Int) - 1)), 0, toLONG data.width, toLONG data.height⟩
        : RECT) = ⟨(data.width : Int) - 1, 0, data.width, data.height⟩) := by
  have hne : toUINT env.GetClientRect.right ≠ data.width := by omega
  have hcc : (toUINT env.GetClientRect.right != data.width ||
      toUINT env.GetClientRect.bottom != data.height) = true := by
    simp [hne]
  have hcalls : ∃ other : RECT,
      (handle_windowposchanged env data flags).2 =
        (update_region env { data with width := toUINT env.GetClientRect.right,
                                       height := toUINT env.GetClientRect.bottom }).2 ++
        [Call.InvalidateRect
           ⟨toLONG (toUINT ((data.width : Int) - 1)), 0, toLONG data.width,
            toLONG data.height⟩,
         Call.InvalidateRect other] := by
    unfold handle_windowposchanged
    dsimp only
    simp only [hcc, Bool.true_or, if_true, update_region_rgn, gt_iff_lt, hgrow]
    by_cases hh : data.height < toUINT env.GetClientRect.bottom
    · simp only [hh, if_true]
      exact ⟨_, rfl⟩
    · simp only [hh, if_false]
      exact ⟨_, rfl⟩
  have hw : (handle_windowposchanged env data flags).1.width
      = toUINT env.GetClientRect.right := by
    unfold handle_windowposchanged
    dsimp only
    simp only [hcc, Bool.true_or, if_true, update_region_rgn]
  have hh : (handle_windowposchanged env data flags).1.height
      = toUINT env.GetClientRect.bottom := by
    unfold handle_windowposchanged
    dsimp only
    simp only [hcc, Bool.true_or, if_true, update_region_rgn]
  refine ⟨hcalls, ?_, hw, hh, ?_, ?_⟩
  · obtain ⟨other, ho⟩ := hcalls
    rw [ho]
    simp
  · intro h1 h2 h3 h4
    unfold isLONG LONG_MIN LONG_MAX at h3 h4
    rw [hw, hh]
    exact ⟨toUINT_of_range h1 (by omega), toUINT_of_range h2 (by omega)⟩
  · intro h1 h2
    unfold LONG_MAX at h1 h2
    have e1 : toLONG (toUINT ((data.width : Int) - 1)) = (data.width : Int) - 1 := by
      unfold toLONG toUINT UINT_RANGE
      omega
    have e2 : toLONG (data.width : Int) = data.width := by
      unfold toLONG UINT_RANGE
      omega
    have e3 : toLONG (data.height : Int) = data.height := by
      unfold toLONG UINT_RANGE
      omega
    rw [e1, e2, e3]

/-- Witness of C8 from the initial state (`W0 = H0 = 0`) to a client area of 400 x 300:
the strip is (-1, 0, 0, 0), its left edge being 0 - 1 wrapped to 2^32 - 1 and stored in a
`LONG`, and its height the old height 0, not 300. -/
theorem windowposchanged_width_grows_witness :
    freshData.width < toUINT restoredEnv.GetClientRect.right ∧
    Call.InvalidateRect ⟨-1, 0, 0, 0⟩ ∈ (handle_windowposchanged restoredEnv freshData 0).2 ∧
    (handle_windowposchanged restoredEnv freshData 0).1.width = 400 ∧
    (handle_windowposchanged restoredEnv freshData 0).1.height = 300 :=
  ⟨by decide,
   (windowposchanged_width_grows restoredEnv freshData 0 (by decide)).2.1,
   (windowposchanged_width_grows restoredEnv freshData 0 (by decide)).2.2.1,
   (windowposchanged_width_grows restoredEnv freshData 0 (by decide)).2.2.2.1⟩

/-! ## The dispatcher: borderless_window_proc -/

/-- C9, as stated, fails.  With composition enabled, a `WM_NCPAINT` sent to a window
with attached state is delegated to `DefWindowProcW`, whose return value (7 on the
sample system) is returned. -/
theorem window_proc_ncpaint_delegates_when_composited :
    (borderless_window_proc restoredEnv
        (some { freshData with composition_enabled := true }) WM_NCPAINT 1 0).calls
      = [Call.DefWindowProcW WM_NCPAINT 1 0] ∧
    (borderless_window_proc restoredEnv
        (some { freshData with composition_enabled := true }) WM_NCPAINT 1 0).result = 7 ∧
    (borderless_window_proc restoredEnv
        (some { freshData with composition_enabled := true }) WM_NCPAINT 1 0).result ≠ 0 := by
  refine ⟨by decide, by decide, by decide⟩

/-- C9, amended.  For every attached state, `borderless_window_proc` answers each of
the two undocumented caption/frame-draw notifications by returning 0 with no call at
all and the state untouched, whatever `composition_enabled` and `theme_enabled` are; it
answers `WM_NCPAINT` the same way when composition is disabled; and when composition
is enabled it delegates `WM_NCPAINT` to `DefWindowProcW` and returns what that
returns. -/
theorem window_proc_suppresses_nonclient_paint (env : Env) (data : window)
    (wparam : Nat) (lparam : Int) :
    borderless_window_proc env (some data) WM_NCUAHDRAWCAPTION wparam lparam
      = ⟨0, some data, [], none⟩ ∧
    borderless_window_proc env (some data) WM_NCUAHDRAWFRAME wparam lparam
      = ⟨0, some data, [], none⟩ ∧
    (data.composition_enabled = false →
      borderless_window_proc env (some data) WM_NCPAINT wparam lparam
        = ⟨0, some data, [], none⟩) ∧
    (data.composition_enabled = true →
      borderless_window_proc env (some data) WM_NCPAINT wparam lparam
        = ⟨env.DefWindowProcW WM_NCPAINT wparam lparam, some data,
           [Call.DefWindowProcW WM_NCPAINT wparam lparam], none⟩) := by
  refine ⟨?_, ?_, fun h => ?_, fun h => ?_⟩
  · simp [borderless_window_proc, WM_NCUAHDRAWCAPTION, WM_NCUAHDRAWFRAME, WM_CLOSE, WM_DESTROY,
      WM_DWMCOMPOSITIONCHANGED, WM_KEYDOWN, WM_LBUTTONDOWN, WM_NCACTIVATE, WM_NCCALCSIZE,
      WM_NCHITTEST, WM_NCPAINT]
  · simp [borderless_window_proc, WM_NCUAHDRAWCAPTION, WM_NCUAHDRAWFRAME, WM_CLOSE, WM_DESTROY,
      WM_DWMCOMPOSITIONCHANGED, WM_KEYDOWN, WM_LBUTTONDOWN, WM_NCACTIVATE, WM_NCCALCSIZE,
      WM_NCHITTEST, WM_NCPAINT]
  · simp [borderless_window_proc, WM_CLOSE, WM_DESTROY,
      WM_DWMCOMPOSITIONCHANGED, WM_KEYDOWN, WM_LBUTTONDOWN, WM_NCACTIVATE, WM_NCCALCSIZE,
      WM_NCHITTEST, WM_NCPAINT, h]
  · simp [borderless_window_proc, default_handling, WM_CLOSE, WM_DESTROY,
      WM_DWMCOMPOSITIONCHANGED, WM_KEYDOWN, WM_LBUTTONDOWN, WM_NCACTIVATE, WM_NCCALCSIZE,
      WM_NCHITTEST, WM_NCPAINT, h]

/-- Witness of the amended C9: on the sample system with composition disabled,
`WM_NCPAINT` returns 0 and issues no call. -/
theorem window_proc_suppresses_nonclient_paint_witness :
    freshData.composition_enabled = false ∧
    borderless_window_proc restoredEnv (some freshData) WM_NCPAINT 1 0
      = ⟨0, some freshData, [], none⟩ :=
  ⟨rfl, (window_proc_suppresses_nonclient_paint restoredEnv freshData 1 0).2.2.1 rfl⟩

end Borderless
